import Mathlib

/-!
Shallow embedding of the Pine Seeds Google-Trends pipeline:
`scripts/fetch_trends.py` (GoogleTrendsFetcher.save_to_csv, fetch_all_trends)
and `scripts/validate_data.py` (PineSeedsValidator.validate_csv_structure,
validate_data_freshness, validate_all_files, main).

Modelling conventions:
- A CSV cell is abstracted by how Python parses its text: `Cell.intC i` is a
  cell whose text parses with `int()` (and hence also with `float()`, yielding
  the same value); `Cell.floatC q` parses with `float()` but not `int()`
  (e.g. "42.0"); `Cell.stringC s` parses with neither (e.g. "time").
  Python float values are modelled by their exact rational value, so the
  comparisons `< 0` / `> 100` on them are mirrored exactly on `Rat`.
- A file on disk is `Option CsvFile`: `none` models a missing file
  (`FileNotFoundError` on open); `some rows` is the parsed row list produced
  by `csv.reader`.
- Wall-clock instants are integer seconds since the epoch; `timedelta.days`
  is floor division by 86400 (`Int.fdiv`), matching Python's floor-towards
  negative-infinity semantics.
- Error and warning strings are modelled by inductive types, one constructor
  per format string of the source, carrying the data interpolated into it.
-/

/-- A CSV cell, abstracted by its parse behaviour under Python
`int()` / `float()`. -/
inductive Cell where
  | intC (i : Int)
  | floatC (q : Rat)
  | stringC (s : String)
deriving DecidableEq, Repr

/-- Python `int(cell)`: succeeds exactly on integer-formatted text. -/
def Cell.toInt? : Cell → Option Int
  | .intC i => some i
  | .floatC _ => none
  | .stringC _ => none

/-- Python `float(cell)`: succeeds on integer- and float-formatted text. -/
def Cell.toFloat? : Cell → Option Rat
  | .intC i => some (i : Rat)
  | .floatC q => some q
  | .stringC _ => none

/-- The parsed content of a CSV file: the row list yielded by `csv.reader`. -/
abbrev CsvFile := List (List Cell)

/-- The `PineSeedsValidator.max_data_points` constant and the fetcher's 6000-row cap. -/
def max_data_points : Nat := 6000

/-- The `PineSeedsValidator.required_columns` list, also the header row
`['time', 'close']` written by `GoogleTrendsFetcher.save_to_csv`. -/
def required_columns : List Cell := [Cell.stringC "time", Cell.stringC "close"]

/-- One error string appended by `validate_csv_structure`, one constructor per
format string of the source, carrying the interpolated data. -/
inductive VError where
  | fileIsEmpty
  | invalidHeader (got : List Cell)
  | wrongColumnCount (row_num : Nat) (got : Nat)
  | ascendingOrder (row_num : Nat)
  | invalidTimestamp (row_num : Nat)
  | valueOutOfRange (row_num : Nat) (value : Rat)
  | invalidCloseValue (row_num : Nat)
  | tooManyDataPoints (count : Nat)
  | noDataRows
  | fileNotFound
deriving DecidableEq, Repr

/-- The loop state of `validate_csv_structure`: the accumulated `errors`
list, `row_count` and `prev_timestamp`. -/
structure StructState where
  errors : List VError
  row_count : Nat
  prev_timestamp : Int
deriving DecidableEq, Repr

/-- One iteration of the row loop of `validate_csv_structure` (source lines
51-73): bump `row_count`; a row without exactly two columns gets a
column-count error and `continue`s; otherwise the timestamp cell is parsed
(`ascendingOrder` error when not strictly greater than `prev_timestamp`,
which is updated only on successful parse) and the close cell is parsed
(`valueOutOfRange` error when outside [0, 100]). -/
def checkRow (row_num : Nat) (st : StructState) (row : List Cell) : StructState :=
  match row with
  | [c0, c1] =>
    let tsStep : List VError × Int :=
      match c0.toInt? with
      | some timestamp =>
        (if timestamp ≤ st.prev_timestamp then [VError.ascendingOrder row_num] else [],
         timestamp)
      | none => ([VError.invalidTimestamp row_num], st.prev_timestamp)
    let valErrs : List VError :=
      match c1.toFloat? with
      | some close_value =>
        if close_value < 0 ∨ close_value > 100 then
          [VError.valueOutOfRange row_num close_value]
        else []
      | none => [VError.invalidCloseValue row_num]
    { errors := st.errors ++ tsStep.1 ++ valErrs
      row_count := st.row_count + 1
      prev_timestamp := tsStep.2 }
  | _ =>
    { errors := st.errors ++ [VError.wrongColumnCount row_num row.length]
      row_count := st.row_count + 1
      prev_timestamp := st.prev_timestamp }

/-- The row loop of `validate_csv_structure`: `enumerate(reader, start=2)`
threading the loop state through every data row. -/
def processRows (row_num : Nat) (st : StructState) : List (List Cell) → StructState
  | [] => st
  | row :: rest => processRows (row_num + 1) (checkRow row_num st row) rest

/-- Model of `PineSeedsValidator.validate_csv_structure`: returns
`(len(errors) == 0, errors)`; a missing file is the single `fileNotFound`
error; a falsy header — `next(reader, None)` giving `None` on a zero-row
file, or a blank first line parsed as `[]` — takes the `if not header` early
return with the single `fileIsEmpty` error, never inspecting later rows;
otherwise the header is compared to `required_columns`, every data row is
checked in order, then the row-count cap and the no-data-rows checks run. -/
def validate_csv_structure (file : Option CsvFile) : Bool × List VError :=
  match file with
  | none => (false, [VError.fileNotFound])
  | some [] => (false, [VError.fileIsEmpty])
  | some (header :: dataRows) =>
    if header = [] then (false, [VError.fileIsEmpty])
    else
      let headerErrs : List VError :=
        if header ≠ required_columns then [VError.invalidHeader header] else []
      let st := processRows 2 ⟨headerErrs, 0, 0⟩ dataRows
      let errs1 := st.errors ++
        (if st.row_count > max_data_points then [VError.tooManyDataPoints st.row_count] else [])
      let errs2 := errs1 ++ (if st.row_count = 0 then [VError.noDataRows] else [])
      (errs2.isEmpty, errs2)

/-- One warning string appended by `validate_data_freshness`; the generic
`except Exception` path (missing file, empty file's `StopIteration`, a last
row with no cells, an unparseable last timestamp) is `freshnessCheckError`. -/
inductive VWarning where
  | noDataToCheck
  | dataTooOld (age_days : Int)
  | freshnessCheckError
deriving DecidableEq, Repr

/-- Model of `PineSeedsValidator.validate_data_freshness`: reads the last data row's
timestamp, computes its age in whole days against `now`, and warns when the
age exceeds `max_age_days`; every exception path degrades to
`(False, [warning])`. -/
def validate_data_freshness (now : Int) (file : Option CsvFile)
    (max_age_days : Int := 7) : Bool × List VWarning :=
  match file with
  | none => (false, [VWarning.freshnessCheckError])
  | some [] => (false, [VWarning.freshnessCheckError])
  | some (_ :: dataRows) =>
    match dataRows.getLast? with
    | none => (false, [VWarning.noDataToCheck])
    | some latest_row =>
      match latest_row.head? with
      | none => (false, [VWarning.freshnessCheckError])
      | some c =>
        match c.toInt? with
        | none => (false, [VWarning.freshnessCheckError])
        | some latest_timestamp =>
          let age_days := (now - latest_timestamp).fdiv 86400
          if age_days > max_age_days then (false, [VWarning.dataTooOld age_days])
          else (true, [])

/-- Python `filename.endswith('.csv')`, modelled over the character list:
true exactly when the last four characters are `.csv`. -/
def endsWithCsv (s : String) : Bool := s.data.reverse.take 4 == ".csv".data.reverse

/-- One entry of the report built by `validate_all_files`. -/
structure FileReport where
  valid : Bool
  fresh : Bool
  errors : List VError
  warnings : List VWarning
deriving DecidableEq, Repr

/-- A directory as the validator sees it: `none` when the data directory is
absent; otherwise the listing, each name paired with the file's content at
open time (`none` = open fails with file-not-found). -/
abbrev Listing := Option (List (String × Option CsvFile))

/-- Model of `PineSeedsValidator.validate_all_files`: empty report when the directory
is absent; otherwise both checks run independently on every `.csv` entry. -/
def validate_all_files (data_dir : Listing) (now : Int) :
    List (String × FileReport) :=
  match data_dir with
  | none => []
  | some listing =>
    (listing.filter (fun p => endsWithCsv p.1)).map (fun p =>
      let sv := validate_csv_structure p.2
      let fw := validate_data_freshness now p.2
      (p.1, { valid := sv.1, fresh := fw.1, errors := sv.2, warnings := fw.2 }))

/-- Model of `validate_data.main`'s process exit code: 1 when the report is empty,
1 when any file is structurally invalid, otherwise 0; freshness flags are
printed but never consulted for the exit code. -/
def validate_main_exit (data_dir : Listing) (now : Int) : Nat :=
  let results := validate_all_files data_dir now
  if results.isEmpty then 1
  else if results.all (fun p => p.2.valid) then 0 else 1

/-- One fetched sample: `(unix_timestamp, trend_value)`. -/
abbrev Sample := Int × Rat

/-- The sort key relation of `sorted(data, key=lambda x: x[0])`. -/
def tsLE (a b : Sample) : Prop := a.1 ≤ b.1

instance : DecidableRel tsLE := fun a b => inferInstanceAs (Decidable (a.1 ≤ b.1))

instance : IsTotal Sample tsLE := ⟨fun a b => Int.le_total a.1 b.1⟩

instance : IsTrans Sample tsLE := ⟨fun _ _ _ h1 h2 => le_trans h1 h2⟩

/-- Model of `GoogleTrendsFetcher.save_to_csv` (the file content it produces): write
the `['time', 'close']` header, then the samples sorted ascending by
timestamp (Python's `sorted` is stable, modelled by the stable
`List.insertionSort`), keeping only the last 6000 of the sorted list
(`sorted_data[-6000:]`) when more were fetched. Timestamps are ints, values
are floats, so rows serialize as `[intC, floatC]`. -/
def save_to_csv (data : List Sample) : CsvFile :=
  let sorted_data := List.insertionSort tsLE data
  let limited_data :=
    if sorted_data.length > max_data_points then
      sorted_data.drop (sorted_data.length - max_data_points)
    else sorted_data
  required_columns :: limited_data.map (fun p => [Cell.intC p.1, Cell.floatC p.2])

/-- The `GoogleTrendsFetcher.search_terms` mapping, in insertion order. -/
def search_terms : List (String × String) :=
  [("GOOGL_TRENDS_BITCOIN", "bitcoin"),
   ("GOOGL_TRENDS_STOCK_MARKET", "stock market"),
   ("GOOGL_TRENDS_RECESSION", "recession"),
   ("GOOGL_TRENDS_INFLATION", "inflation"),
   ("GOOGL_TRENDS_CRYPTOCURRENCY", "cryptocurrency")]

/-- Observable outcome of `fetch_all_trends`: the `results` mapping
(symbol to recorded boolean) and the files written, in order. -/
structure FetchOutcome where
  results : List (String × Bool)
  written : List (String × CsvFile)
deriving DecidableEq, Repr

/-- Model of `GoogleTrendsFetcher.fetch_all_trends`, parameterized by the upstream
response (`fetchData keyword` is what `fetch_trends_data` returns): iterate
the first three configured terms; a non-empty fetch is saved to
`<symbol>.csv` and its save result recorded (the pure embedding of
`save_to_csv` always succeeds, as the Python does absent I/O errors); an
empty fetch writes nothing and records `results[symbol] = True`
("Using existing data"). -/
def fetch_all_trends (fetchData : String → List Sample) : FetchOutcome :=
  (search_terms.take 3).foldl
    (fun acc p =>
      let data := fetchData p.2
      if data.isEmpty then
        { acc with results := acc.results ++ [(p.1, true)] }
      else
        { results := acc.results ++ [(p.1, true)]
          written := acc.written ++ [(p.1 ++ ".csv", save_to_csv data)] })
    { results := [], written := [] }

/-- The files `validate_all_files` enumerates: the `.csv`-named entries of
the data directory, or nothing when the directory is absent. -/
def enumerated_csv_files (data_dir : Listing) : List (String × Option CsvFile) :=
  match data_dir with
  | none => []
  | some listing => listing.filter (fun p => endsWithCsv p.1)

/-- The directory of the two-file validation scenario: `A.csv` present with
content `fA`, `B.csv` listed but missing at open time. -/
def scenario_dir (fA : CsvFile) : Listing :=
  some [("A.csv", some fA), ("B.csv", none)]

/-- The data rows of a file content (everything after the header row). -/
def fileDataRows (f : CsvFile) : List (List Cell) := f.drop 1

/-- The timestamp of a row, when its first cell int-parses. -/
def rowTimestamp (row : List Cell) : Option Int := row.head?.bind Cell.toInt?

/-- The int-parsed first-column values of a file's data rows, in file order. -/
def fileTimestamps (f : CsvFile) : List Int :=
  (fileDataRows f).filterMap rowTimestamp

/-! Helper lemmas about the validator's row loop. -/

/-- The required header row is not the empty row, so a well-headed file never
takes the falsy-header early return. -/
theorem required_columns_ne_nil : required_columns ≠ [] := by decide

/-- The function `checkRow` only ever appends to the error list. -/
theorem checkRow_errors_append (row_num : Nat) (st : StructState) (row : List Cell) :
    ∃ tail, (checkRow row_num st row).errors = st.errors ++ tail := by
  rcases row with _ | ⟨c0, _ | ⟨c1, _ | ⟨c2, r⟩⟩⟩
  · exact ⟨_, rfl⟩
  · exact ⟨_, rfl⟩
  · exact ⟨_, List.append_assoc st.errors _ _⟩
  · exact ⟨_, rfl⟩

/-- The function `checkRow` always increments `row_count` by one. -/
theorem checkRow_row_count (row_num : Nat) (st : StructState) (row : List Cell) :
    (checkRow row_num st row).row_count = st.row_count + 1 := by
  rcases row with _ | ⟨c0, _ | ⟨c1, _ | ⟨c2, r⟩⟩⟩ <;> rfl

/-- The row loop only ever appends to the error list it is given. -/
theorem processRows_errors_append (rows : List (List Cell)) :
    ∀ (n : Nat) (st : StructState),
      ∃ tail, (processRows n st rows).errors = st.errors ++ tail := by
  induction rows with
  | nil => exact fun n st => ⟨[], by simp [processRows]⟩
  | cons row rest ih =>
    intro n st
    obtain ⟨t1, h1⟩ := checkRow_errors_append n st row
    obtain ⟨t2, h2⟩ := ih (n + 1) (checkRow n st row)
    exact ⟨t1 ++ t2, by simp [processRows, h2, h1, List.append_assoc]⟩

/-- The row loop counts every data row exactly once. -/
theorem processRows_row_count (rows : List (List Cell)) :
    ∀ (n : Nat) (st : StructState),
      (processRows n st rows).row_count = st.row_count + rows.length := by
  induction rows with
  | nil => intro n st; simp [processRows]
  | cons row rest ih =>
    intro n st
    simp [processRows, ih (n + 1) (checkRow n st row), checkRow_row_count]
    omega

/-- Every malformed (non-two-column) data row contributes its column-count
error to the loop's accumulated error list, wherever it sits. -/
theorem processRows_wcc_mem (rows : List (List Cell)) :
    ∀ (n : Nat) (st : StructState) (i : Nat) (h : i < rows.length),
      (rows.get ⟨i, h⟩).length ≠ 2 →
      VError.wrongColumnCount (n + i) (rows.get ⟨i, h⟩).length ∈
        (processRows n st rows).errors := by
  induction rows with
  | nil => intro n st i h; exact absurd h (Nat.not_lt_zero i)
  | cons row rest ih =>
    intro n st i h hlen
    cases i with
    | zero =>
      obtain ⟨tail, htail⟩ := processRows_errors_append rest (n + 1) (checkRow n st row)
      have hck : VError.wrongColumnCount n row.length ∈ (checkRow n st row).errors := by
        rcases row with _ | ⟨c0, _ | ⟨c1, _ | ⟨c2, r⟩⟩⟩
        · simp [checkRow]
        · simp [checkRow]
        · exact absurd rfl hlen
        · simp [checkRow]
      simpa [processRows, htail] using List.mem_append_left tail hck
    | succ j =>
      have hj : j < rest.length := by simpa [Nat.succ_lt_succ_iff] using h
      have := ih (n + 1) (checkRow n st row) j hj (by simpa using hlen)
      have harith : n + 1 + j = n + (j + 1) := by omega
      simpa [processRows, harith] using this

/-- C8: Structural validation is total: for every file, including a missing
one, it returns a boolean consistent with its error list; a missing file
yields exactly the single file-not-found error; a falsy header (no first row,
or a blank first row) takes the early return with the single file-is-empty
error; and past that header gate violations are accumulated across all rows
rather than stopping at the first — every malformed row, wherever it sits,
has its error in the returned list. -/
theorem validate_structure_total_and_accumulating :
    validate_csv_structure none = (false, [VError.fileNotFound]) ∧
    (∀ rest : List (List Cell),
      validate_csv_structure (some ([] :: rest)) = (false, [VError.fileIsEmpty])) ∧
    (∀ file : Option CsvFile,
      (validate_csv_structure file).1 = (validate_csv_structure file).2.isEmpty) ∧
    (∀ (header : List Cell) (rows : List (List Cell)) (i : Nat) (h : i < rows.length),
      header ≠ [] →
      (rows.get ⟨i, h⟩).length ≠ 2 →
      VError.wrongColumnCount (i + 2) (rows.get ⟨i, h⟩).length ∈
        (validate_csv_structure (some (header :: rows))).2) := by
  refine ⟨rfl, ?_, ?_, ?_⟩
  · intro rest
    simp [validate_csv_structure]
  · intro file
    rcases file with _ | (_ | ⟨hdr, rows⟩)
    · simp [validate_csv_structure]
    · simp [validate_csv_structure]
    · by_cases hh : hdr = [] <;> simp [validate_csv_structure, hh]
  · intro header rows i h hheader hlen
    have hmem := processRows_wcc_mem rows 2 ⟨(if header ≠ required_columns then
      [VError.invalidHeader header] else []), 0, 0⟩ i h hlen
    have harith : 2 + i = i + 2 := by omega
    rw [harith] at hmem
    simp only [validate_csv_structure]
    rw [if_neg hheader]
    exact List.mem_append_left _ (List.mem_append_left _ hmem)

/-- Witness for C8: a file whose second data row has one column receives a
column-count error for row 3 even though row 2 is also malformed. -/
theorem validate_structure_accumulating_witness :
    VError.wrongColumnCount 3 1 ∈
      (validate_csv_structure (some (required_columns ::
        [[Cell.intC 5], [Cell.intC 7]]))).2 :=
  validate_structure_total_and_accumulating.2.2.2 required_columns
    [[Cell.intC 5], [Cell.intC 7]] 1 (by decide) (by decide) (by decide)

/-- C10: for every file the structural validator's boolean holds exactly when
its error list is empty, and the freshness validator's boolean holds exactly
when its warning list is empty. -/
theorem valid_iff_errors_empty (file : Option CsvFile) (now max_age_days : Int) :
    ((validate_csv_structure file).1 = true ↔ (validate_csv_structure file).2 = []) ∧
    ((validate_data_freshness now file max_age_days).1 = true ↔
      (validate_data_freshness now file max_age_days).2 = []) := by
  constructor
  · rcases file with _ | (_ | ⟨hdr, rows⟩)
    · simp [validate_csv_structure]
    · simp [validate_csv_structure]
    · by_cases hh : hdr = [] <;> simp [validate_csv_structure, hh]
  · rcases file with _ | (_ | ⟨hdr, rows⟩)
    · simp [validate_data_freshness]
    · simp [validate_data_freshness]
    · rcases h1 : rows.getLast? with _ | lr
      · simp [validate_data_freshness, h1]
      · rcases h2 : lr.head? with _ | c
        · simp [validate_data_freshness, h1, h2]
        · rcases h3 : c.toInt? with _ | t
          · simp [validate_data_freshness, h1, h2, h3]
          · simp only [validate_data_freshness, h1, h2, h3]
            split <;> simp

/-- C4: the validate-all entry point exits 0 exactly when the enumerated file
list is non-empty and every enumerated file is structurally valid; it exits 1
when no files exist or some file is invalid; and the exit code is independent
of the clock, so freshness warnings never change it. -/
theorem validate_main_exit_spec (data_dir : Listing) (now now2 : Int) :
    (validate_main_exit data_dir now =
      if enumerated_csv_files data_dir ≠ [] ∧
          (∀ p ∈ enumerated_csv_files data_dir, (validate_csv_structure p.2).1 = true)
        then 0 else 1) ∧
    validate_main_exit data_dir now = validate_main_exit data_dir now2 := by
  have key : ∀ m : Int, validate_main_exit data_dir m =
      if enumerated_csv_files data_dir ≠ [] ∧
          (∀ p ∈ enumerated_csv_files data_dir, (validate_csv_structure p.2).1 = true)
        then 0 else 1 := by
    intro m
    rcases data_dir with _ | listing
    · simp [validate_main_exit, validate_all_files, enumerated_csv_files]
    · simp only [validate_main_exit, validate_all_files, enumerated_csv_files,
        List.all_map, Function.comp, List.isEmpty_iff, List.map_eq_nil_iff,
        List.all_eq_true, List.forall_mem_map]
      by_cases hE : listing.filter (fun p => endsWithCsv p.1) = []
      · simp [hE]
      · by_cases hA : ∀ p ∈ listing.filter (fun p => endsWithCsv p.1),
            (validate_csv_structure p.2).1 = true
        · rw [if_pos hA, if_pos (And.intro hE hA), if_neg hE]
        · rw [if_neg hA, if_neg (fun hc => hA (And.right hc)), if_neg hE]
  exact ⟨key now, (key now).trans (key now2).symm⟩

/-- Witness for C4 (no top-level hypotheses; instantiates the theorem at a
concrete empty directory, where the exit code is 1). -/
theorem validate_main_exit_spec_witness :
    validate_main_exit (some []) 0 = 1 :=
  (validate_main_exit_spec (some []) 0 5).1.trans (by simp [enumerated_csv_files])

/-- C5: in structural validation the first data row is compared against a
conceptual previous timestamp of 0, so a first timestamp of exactly 0 is
rejected with an ascending-order error on row 2; and two consecutive rows
with identical timestamps produce exactly an ascending-order error reported
on the second row. -/
theorem first_timestamp_zero_and_duplicate_rejected (t : Int) (v w : Rat)
    (ht : 0 < t) (hv0 : 0 ≤ v) (hv1 : v ≤ 100) (hw0 : 0 ≤ w) (hw1 : w ≤ 100) :
    (validate_csv_structure
        (some [required_columns, [Cell.intC 0, Cell.floatC v]])).2 =
      [VError.ascendingOrder 2] ∧
    (validate_csv_structure
        (some [required_columns,
               [Cell.intC t, Cell.floatC v],
               [Cell.intC t, Cell.floatC w]])).2 =
      [VError.ascendingOrder 3] := by
  have hv : ¬(v < 0 ∨ v > 100) := by push_neg; exact ⟨hv0, hv1⟩
  have hw : ¬(w < 0 ∨ w > 100) := by push_neg; exact ⟨hw0, hw1⟩
  constructor
  · simp [validate_csv_structure, required_columns, processRows, checkRow, Cell.toInt?, Cell.toFloat?,
      hv, max_data_points]
  · simp [validate_csv_structure, required_columns, processRows, checkRow, Cell.toInt?, Cell.toFloat?,
      hv, hw, ht.not_le, max_data_points]

/-- Witness for C5 at timestamp 7 and value 50. -/
theorem first_timestamp_zero_and_duplicate_rejected_witness :
    (validate_csv_structure
        (some [required_columns, [Cell.intC 0, Cell.floatC 50]])).2 =
      [VError.ascendingOrder 2] ∧
    (validate_csv_structure
        (some [required_columns,
               [Cell.intC 7, Cell.floatC 50],
               [Cell.intC 7, Cell.floatC 50]])).2 =
      [VError.ascendingOrder 3] :=
  first_timestamp_zero_and_duplicate_rejected 7 50 50 (by norm_num) (by norm_num)
    (by norm_num) (by norm_num) (by norm_num)

/-- C6: for a well-formed single data row, a close value inside [0, 100]
(including exactly 0 and exactly 100) is accepted with no errors, while a
value strictly below 0 or strictly above 100 is recorded in the error list
(not the warning list) as an out-of-range error. -/
theorem close_value_range_check (t : Int) (v : Rat) (ht : 0 < t) :
    ((0 ≤ v ∧ v ≤ 100) →
      validate_csv_structure
        (some [required_columns, [Cell.intC t, Cell.floatC v]]) = (true, [])) ∧
    ((v < 0 ∨ 100 < v) →
      validate_csv_structure
        (some [required_columns, [Cell.intC t, Cell.floatC v]]) =
        (false, [VError.valueOutOfRange 2 v])) := by
  constructor
  · rintro ⟨h0, h1⟩
    have hv : ¬(v < 0 ∨ v > 100) := by push_neg; exact ⟨h0, h1⟩
    simp [validate_csv_structure, required_columns, processRows, checkRow, Cell.toInt?, Cell.toFloat?,
      hv, ht.not_le, max_data_points]
  · intro hout
    simp [validate_csv_structure, required_columns, processRows, checkRow, Cell.toInt?, Cell.toFloat?,
      hout, ht.not_le, max_data_points]

/-- Witness for C6: value 100 and value 0 are accepted, value 100.01
(= 10001/100) is recorded as an out-of-range error. -/
theorem close_value_range_check_witness :
    validate_csv_structure
      (some [required_columns, [Cell.intC 1, Cell.floatC 100]]) = (true, []) ∧
    validate_csv_structure
      (some [required_columns, [Cell.intC 1, Cell.floatC 0]]) = (true, []) ∧
    validate_csv_structure
      (some [required_columns, [Cell.intC 1, Cell.floatC (10001/100)]]) =
      (false, [VError.valueOutOfRange 2 (10001/100)]) :=
  ⟨(close_value_range_check 1 100 (by norm_num)).1 (by norm_num),
   (close_value_range_check 1 0 (by norm_num)).1 (by norm_num),
   (close_value_range_check 1 (10001/100) (by norm_num)).2 (by norm_num)⟩

/-! Properties of the persist operation. -/

/-- The int-parsed first column of rows written by the fetcher is exactly the
sample timestamps, in order. -/
theorem timestamps_of_written_rows (l : List Sample) :
    (l.map (fun p => [Cell.intC p.1, Cell.floatC p.2])).filterMap rowTimestamp =
      l.map Prod.fst := by
  induction l with
  | nil => rfl
  | cons p rest ih => simp [rowTimestamp, Cell.toInt?, ih]

/-- Definitional unfolding of `save_to_csv`. -/
theorem save_to_csv_eq (data : List Sample) : save_to_csv data = required_columns ::
    (if (List.insertionSort tsLE data).length > max_data_points then
       (List.insertionSort tsLE data).drop
         ((List.insertionSort tsLE data).length - max_data_points)
     else List.insertionSort tsLE data).map
      (fun p => [Cell.intC p.1, Cell.floatC p.2]) := rfl

/-- Splitting lemma for the persist operation: its data rows are the kept
samples serialized in ascending-timestamp order; kept and dropped samples
partition the input up to permutation, with every dropped timestamp at most
every kept timestamp. -/
theorem save_to_csv_sort_cap_split (data : List Sample) :
    ∃ dropped kept : List Sample,
      (dropped ++ kept).Perm data ∧
      fileDataRows (save_to_csv data) =
        kept.map (fun p => [Cell.intC p.1, Cell.floatC p.2]) ∧
      kept.length = min data.length max_data_points ∧
      (fileDataRows (save_to_csv data)).length ≤ max_data_points ∧
      kept.Pairwise tsLE ∧
      (∀ x ∈ dropped, ∀ y ∈ kept, tsLE x y) ∧
      (data.length ≤ max_data_points → dropped = []) := by
  have hperm := List.perm_insertionSort tsLE data
  have hsorted := List.sorted_insertionSort tsLE data
  have hlen := hperm.length_eq
  set s := List.insertionSort tsLE data with hs
  set k := if s.length > max_data_points then s.length - max_data_points else 0 with hk
  have hsplit : fileDataRows (save_to_csv data) =
      (s.drop k).map (fun p => [Cell.intC p.1, Cell.floatC p.2]) := by
    rw [save_to_csv_eq, fileDataRows, ← hs, hk]
    by_cases h : s.length > max_data_points
    · rw [if_pos h, if_pos h]; rfl
    · rw [if_neg h, if_neg h]; rfl
  have hpair := List.pairwise_append.mp
    (show ((s.take k) ++ (s.drop k)).Pairwise tsLE by
      rw [List.take_append_drop]; exact hsorted)
  refine ⟨s.take k, s.drop k, ?_, hsplit, ?_, ?_, hpair.2.1, hpair.2.2, ?_⟩
  · rw [List.take_append_drop]; exact hperm
  · rw [List.length_drop]
    by_cases h : s.length > max_data_points
    · simp only [hk, if_pos h]; omega
    · simp only [hk, if_neg h]; omega
  · rw [hsplit, List.length_map, List.length_drop]
    by_cases h : s.length > max_data_points
    · simp only [hk, if_pos h]; omega
    · simp only [hk, if_neg h]; omega
  · intro hle
    have hk0 : k = 0 := by
      by_cases h : s.length > max_data_points
      · omega
      · simp [hk, if_neg h]
    simp [hk0]

/-- C2: the persist operation writes at most 6000 data rows; its rows are the
kept samples serialized in ascending-timestamp order after the header, where
the kept samples together with the dropped ones are a permutation of the
input, every dropped sample's timestamp is at most every kept sample's,
exactly `min (input length) 6000` samples are kept (so exactly the 6000
highest-timestamp samples when the input exceeds the cap), and nothing is
dropped when the input fits the cap. -/
theorem save_to_csv_caps_to_most_recent (data : List Sample) :
    ∃ dropped kept : List Sample,
      (dropped ++ kept).Perm data ∧
      fileDataRows (save_to_csv data) =
        kept.map (fun p => [Cell.intC p.1, Cell.floatC p.2]) ∧
      kept.length = min data.length max_data_points ∧
      (fileDataRows (save_to_csv data)).length ≤ max_data_points ∧
      kept.Pairwise tsLE ∧
      (∀ x ∈ dropped, ∀ y ∈ kept, tsLE x y) ∧
      (data.length ≤ max_data_points → dropped = []) :=
  save_to_csv_sort_cap_split data

/-- Witness for C2 at a concrete two-sample input. -/
theorem save_to_csv_caps_witness :
    (fileDataRows (save_to_csv [((5 : Int), (1 : Rat)), (3, 2)])).length ≤
      max_data_points := by
  obtain ⟨d, kept, h1, h2, h3, h4, h5, h6, h7⟩ :=
    save_to_csv_caps_to_most_recent [((5 : Int), (1 : Rat)), (3, 2)]
  exact h4

/-- C1 counterexample: on an input containing two samples with the same
timestamp, the persisted rows are NOT strictly ascending — the two
consecutive rows share a timestamp — so the claim fails for inputs with
duplicate timestamps. -/
theorem save_to_csv_duplicates_not_strict :
    ¬ List.Chain' (fun a b : Int => a < b)
      (fileTimestamps (save_to_csv [((1 : Int), (0 : Rat)), (1, 0)])) := by
  have hts : fileTimestamps (save_to_csv [((1 : Int), (0 : Rat)), (1, 0)]) =
      [1, 1] := by rfl
  rw [hts]
  simp [List.chain'_cons]

/-- C1 (amended): for every input whose sample timestamps are pairwise
distinct — in any order — the persisted file's data-row timestamps are
strictly ascending: no two consecutive rows share a timestamp and none
invert order. (For arbitrary inputs the rows are ascending but only
non-strictly; see the counterexample.) -/
theorem save_to_csv_strict_ascending_of_distinct (data : List Sample)
    (hnd : (data.map Prod.fst).Nodup) :
    List.Chain' (fun a b : Int => a < b) (fileTimestamps (save_to_csv data)) := by
  obtain ⟨dropped, kept, hperm, hrows, hklen, hcap, hpair, hdk, hfit⟩ :=
    save_to_csv_sort_cap_split data
  have hts : fileTimestamps (save_to_csv data) = kept.map Prod.fst := by
    rw [fileTimestamps, hrows, timestamps_of_written_rows]
  have hnd2 : ((dropped ++ kept).map Prod.fst).Nodup :=
    ((hperm.map Prod.fst).symm).nodup hnd
  have hndk : (kept.map Prod.fst).Nodup := by
    rw [List.map_append] at hnd2
    exact hnd2.sublist (List.sublist_append_right _ _)
  have hne : kept.Pairwise (fun a b => a.1 ≠ b.1) := List.pairwise_map.mp hndk
  have hlt : kept.Pairwise (fun a b : Sample => a.1 < b.1) :=
    (hpair.and hne).imp (fun h => lt_of_le_of_ne h.1 h.2)
  rw [hts]
  exact (List.pairwise_map.mpr hlt).chain'

/-- Witness for C1 (amended) at a concrete unsorted distinct-timestamp
input. -/
theorem save_to_csv_strict_ascending_witness :
    List.Chain' (fun a b : Int => a < b)
      (fileTimestamps (save_to_csv [((2 : Int), (5 : Rat)), (1, 3)])) :=
  save_to_csv_strict_ascending_of_distinct [((2 : Int), (5 : Rat)), (1, 3)]
    (by decide)

/-! The fetch-all loop. -/

/-- Whatever the upstream returns, `fetch_all_trends` records every one of
the three attempted series as `True`: the non-empty branch records the save
result and the empty branch records `True` ("Using existing data"). -/
theorem fetch_all_results_all_true (fetchData : String → List Sample) :
    (fetch_all_trends fetchData).results =
      [("GOOGL_TRENDS_BITCOIN", true), ("GOOGL_TRENDS_STOCK_MARKET", true),
       ("GOOGL_TRENDS_RECESSION", true)] := by
  unfold fetch_all_trends search_terms
  simp only [List.take, List.foldl]
  by_cases h1 : (fetchData "bitcoin").isEmpty = true <;>
    by_cases h2 : (fetchData "stock market").isEmpty = true <;>
      by_cases h3 : (fetchData "recession").isEmpty = true <;>
        simp [h1, h2, h3]

/-- C3 counterexample: when the upstream returns an empty table for every
keyword (in particular for "bitcoin"), `fetch_all_trends` writes no file but
records the series as `True` — not as failed — so the claim that an empty
fetch is recorded with `success = false` is false on this input. -/
theorem empty_fetch_not_recorded_failed :
    (fetch_all_trends (fun _ => [])).written = [] ∧
    (fetch_all_trends (fun _ => [])).results.lookup "GOOGL_TRENDS_BITCOIN" =
      some true ∧
    ¬ ((fetch_all_trends (fun _ => [])).results.lookup "GOOGL_TRENDS_BITCOIN" =
      some false) := by
  refine ⟨rfl, rfl, ?_⟩
  intro h
  have hcontra : (some true : Option Bool) = some false :=
    Eq.trans (Eq.symm (rfl : (fetch_all_trends (fun _ => [])).results.lookup
      "GOOGL_TRENDS_BITCOIN" = some true)) h
  simp at hcontra

/-- C3 (amended): for every attempted series whose fetch returns an empty
sample sequence, no file is written for that series and the series is
recorded as SUCCESS (`results[symbol] = True`, "Using existing data") — the
code's fallback policy, contrary to the claim's `success = false`. -/
theorem empty_fetch_keeps_series (fetchData : String → List Sample)
    (sym kw : String) (hmem : (sym, kw) ∈ search_terms.take 3)
    (hempty : fetchData kw = []) :
    (fetch_all_trends fetchData).results.lookup sym = some true ∧
    (sym ++ ".csv") ∉ ((fetch_all_trends fetchData).written.map Prod.fst) := by
  have hcases : (sym = "GOOGL_TRENDS_BITCOIN" ∧ kw = "bitcoin") ∨
      (sym = "GOOGL_TRENDS_STOCK_MARKET" ∧ kw = "stock market") ∨
      (sym = "GOOGL_TRENDS_RECESSION" ∧ kw = "recession") := by
    simpa [search_terms, Prod.ext_iff] using hmem
  constructor
  · rw [fetch_all_results_all_true]
    rcases hcases with ⟨h, _⟩ | ⟨h, _⟩ | ⟨h, _⟩ <;> subst h <;> rfl
  · rcases hcases with ⟨h, hk⟩ | ⟨h, hk⟩ | ⟨h, hk⟩
    · subst h; subst hk
      have he : (fetchData "bitcoin").isEmpty = true := by rw [hempty]; rfl
      unfold fetch_all_trends search_terms
      simp only [List.take, List.foldl]
      by_cases h2 : (fetchData "stock market").isEmpty = true <;>
        by_cases h3 : (fetchData "recession").isEmpty = true <;>
          simp [he, h2, h3]
    · subst h; subst hk
      have he : (fetchData "stock market").isEmpty = true := by rw [hempty]; rfl
      unfold fetch_all_trends search_terms
      simp only [List.take, List.foldl]
      by_cases h1 : (fetchData "bitcoin").isEmpty = true <;>
        by_cases h3 : (fetchData "recession").isEmpty = true <;>
          simp [he, h1, h3]
    · subst h; subst hk
      have he : (fetchData "recession").isEmpty = true := by rw [hempty]; rfl
      unfold fetch_all_trends search_terms
      simp only [List.take, List.foldl]
      by_cases h1 : (fetchData "bitcoin").isEmpty = true <;>
        by_cases h2 : (fetchData "stock market").isEmpty = true <;>
          simp [he, h1, h2]

/-- Witness for C3 (amended), at the all-empty upstream and the "bitcoin"
series. -/
theorem empty_fetch_keeps_series_witness :
    (fetch_all_trends (fun _ => ([] : List Sample))).results.lookup
      "GOOGL_TRENDS_BITCOIN" = some true ∧
    ("GOOGL_TRENDS_BITCOIN" ++ ".csv") ∉
      ((fetch_all_trends (fun _ => ([] : List Sample))).written.map Prod.fst) :=
  empty_fetch_keeps_series (fun _ => []) "GOOGL_TRENDS_BITCOIN" "bitcoin"
    (by simp [search_terms]) rfl

/-! Round trip: persist then validate. -/

/-- Rows serialized from samples with timestamps strictly above the current
`prev_timestamp`, pairwise strictly increasing, and values inside [0, 100],
pass the row loop without adding any error, counting each row once. -/
theorem processRows_no_errors (l : List Sample) :
    ∀ (n : Nat) (st : StructState),
      (∀ p ∈ l, st.prev_timestamp < p.1) →
      l.Pairwise (fun a b : Sample => a.1 < b.1) →
      (∀ p ∈ l, 0 ≤ p.2 ∧ p.2 ≤ 100) →
      (processRows n st (l.map (fun p => [Cell.intC p.1, Cell.floatC p.2]))).errors =
          st.errors ∧
        (processRows n st (l.map (fun p => [Cell.intC p.1, Cell.floatC p.2]))).row_count =
          st.row_count + l.length := by
  induction l with
  | nil => intro n st _ _ _; exact ⟨rfl, rfl⟩
  | cons p rest ih =>
    intro n st hprev hpair hrange
    have hlt : st.prev_timestamp < p.1 := hprev p (List.mem_cons_self p rest)
    have hval : ¬((p.2 : Rat) < 0 ∨ p.2 > 100) := by
      push_neg
      exact ⟨(hrange p (List.mem_cons_self p rest)).1,
             (hrange p (List.mem_cons_self p rest)).2⟩
    have hck : checkRow n st [Cell.intC p.1, Cell.floatC p.2] =
        { errors := st.errors, row_count := st.row_count + 1,
          prev_timestamp := p.1 } := by
      simp [checkRow, Cell.toInt?, Cell.toFloat?, not_le.mpr hlt, hval]
    have hih := ih (n + 1)
      { errors := st.errors, row_count := st.row_count + 1, prev_timestamp := p.1 }
      (fun q hq => (List.rel_of_pairwise_cons hpair hq))
      (List.Pairwise.of_cons hpair)
      (fun q hq => hrange q (List.mem_cons_of_mem p hq))
    simp only [List.map, processRows, hck]
    refine ⟨hih.1, ?_⟩
    rw [hih.2]
    simp [List.length_cons]
    omega

/-- C7: round trip. For every non-empty well-formed sample sequence —
strictly increasing positive timestamps, values in [0, 100], at most 6000
points, last timestamp within the 7-day freshness window of `now` —
persisting it and validating the written file yields structural validity and
freshness with empty error and warning lists. -/
theorem round_trip_valid_and_fresh (data : List Sample) (now : Int)
    (hne : data ≠ [])
    (hinc : data.Pairwise (fun a b : Sample => a.1 < b.1))
    (hpos : ∀ p ∈ data, 0 < p.1)
    (hrange : ∀ p ∈ data, 0 ≤ p.2 ∧ p.2 ≤ 100)
    (hlen : data.length ≤ max_data_points)
    (hfresh : (now - (data.getLast hne).1).fdiv 86400 ≤ 7) :
    validate_csv_structure (some (save_to_csv data)) = (true, []) ∧
    validate_data_freshness now (some (save_to_csv data)) = (true, []) := by
  have hsorted : List.Sorted tsLE data :=
    hinc.imp (fun h => le_of_lt h)
  have hid : List.insertionSort tsLE data = data := hsorted.insertionSort_eq
  have hsave : save_to_csv data = required_columns ::
      data.map (fun p => [Cell.intC p.1, Cell.floatC p.2]) := by
    rw [save_to_csv_eq, hid, if_neg (not_lt.mpr hlen)]
  have hmain := processRows_no_errors data 2 ⟨[], 0, 0⟩ hpos hinc hrange
  have hnz : data.length ≠ 0 := fun h => hne (List.length_eq_zero.mp h)
  constructor
  · rw [hsave]
    simp only [validate_csv_structure]
    rw [if_neg required_columns_ne_nil]
    have hng : ¬ ((processRows 2 ⟨[], 0, 0⟩
        (data.map (fun p => [Cell.intC p.1, Cell.floatC p.2]))).row_count >
          max_data_points) := by
      rw [hmain.2]; simpa using not_lt.mpr hlen
    have hn0 : ¬ ((processRows 2 ⟨[], 0, 0⟩
        (data.map (fun p => [Cell.intC p.1, Cell.floatC p.2]))).row_count = 0) := by
      rw [hmain.2]; simpa using hnz
    simp [hmain.1, hng, hn0]
  · rw [hsave]
    have hlast : (data.map (fun p => [Cell.intC p.1, Cell.floatC p.2])).getLast? =
        some [Cell.intC (data.getLast hne).1, Cell.floatC (data.getLast hne).2] := by
      rw [List.getLast?_map, List.getLast?_eq_getLast data hne]
      rfl
    simp [validate_data_freshness, hlast, Cell.toInt?, not_lt.mpr hfresh]

/-- Witness for C7 at the one-sample sequence `[(100, 50)]` validated at
`now = 100`. -/
theorem round_trip_valid_and_fresh_witness :
    validate_csv_structure (some (save_to_csv [((100 : Int), (50 : Rat))])) =
      (true, []) ∧
    validate_data_freshness 100 (some (save_to_csv [((100 : Int), (50 : Rat))])) =
      (true, []) :=
  round_trip_valid_and_fresh [((100 : Int), (50 : Rat))] 100 (by decide)
    (by simp) (by decide) (by decide) (by decide) (by decide)

/-! The directory validation scenario. -/

/-- C9: when the data directory lists `A.csv` (present, structurally valid
and fresh) and `B.csv` (missing at open time), the validation report has
exactly two entries: `A.csv` passes both checks and `B.csv` fails
structurally with the single file-not-found error (and is reported not
fresh); the process exit code is 1. -/
theorem two_file_scenario (now : Int) (fA : CsvFile)
    (hA : validate_csv_structure (some fA) = (true, []))
    (hAf : validate_data_freshness now (some fA) = (true, [])) :
    (validate_all_files (scenario_dir fA) now).length = 2 ∧
    validate_all_files (scenario_dir fA) now =
      [("A.csv", { valid := true, fresh := true, errors := [], warnings := [] }),
       ("B.csv", { valid := false, fresh := false,
                   errors := [VError.fileNotFound],
                   warnings := [VWarning.freshnessCheckError] })] ∧
    validate_main_exit (scenario_dir fA) now = 1 := by
  have hfilter : ([("A.csv", some fA), ("B.csv", (none : Option CsvFile))].filter
      (fun p => endsWithCsv p.1)) = [("A.csv", some fA), ("B.csv", none)] := by
    have e1 : endsWithCsv "A.csv" = true := by decide
    have e2 : endsWithCsv "B.csv" = true := by decide
    simp [List.filter, e1, e2]
  have hreport : validate_all_files (scenario_dir fA) now =
      [("A.csv", { valid := true, fresh := true, errors := [], warnings := [] }),
       ("B.csv", { valid := false, fresh := false,
                   errors := [VError.fileNotFound],
                   warnings := [VWarning.freshnessCheckError] })] := by
    have hBs : validate_csv_structure none = (false, [VError.fileNotFound]) := rfl
    have hBf : validate_data_freshness now none =
        (false, [VWarning.freshnessCheckError]) := rfl
    simp only [validate_all_files, scenario_dir]
    rw [hfilter]
    simp [hA, hAf, hBs, hBf]
  refine ⟨by rw [hreport]; rfl, hreport, ?_⟩
  simp only [validate_main_exit]
  rw [hreport]
  rfl

/-- Witness for C9 with a concrete valid-and-fresh `A.csv` content at
`now = 100`. -/
theorem two_file_scenario_witness :
    validate_all_files (scenario_dir [required_columns,
        [Cell.intC 100, Cell.floatC 50]]) 100 =
      [("A.csv", { valid := true, fresh := true, errors := [], warnings := [] }),
       ("B.csv", { valid := false, fresh := false,
                   errors := [VError.fileNotFound],
                   warnings := [VWarning.freshnessCheckError] })] ∧
    validate_main_exit (scenario_dir [required_columns,
        [Cell.intC 100, Cell.floatC 50]]) 100 = 1 := by
  have h := two_file_scenario 100 [required_columns, [Cell.intC 100, Cell.floatC 50]]
    (by decide) (by decide)
  exact ⟨h.2.1, h.2.2⟩
